import Mathlib

/-!
Shallow embedding of the `review-go` repository (a terminal tool that sends
staged-diff text to an LLM backend and renders per-file reviews), together
with theorems settling the specification claims.

Conventions of the embedding:
* Go strings are Lean `String`s; `strings.TrimSpace` is modelled by
  `ReviewGo.trimSpace` (drop leading/trailing whitespace characters).
* Go maps are modelled as association lists (`List (String × _)`) with
  `List.lookup`; a `nil` map and an empty map are both `[]` / `none`.
* Fallible Go functions returning `(T, error)` become `Except String T`.
* External collaborators (the git subprocess, the HTTP transport, the
  lipgloss/glamour terminal renderers) are passed in as function parameters;
  everything that is logic of this repository is translated directly.
-/

namespace ReviewGo

/-- Core of `strings.TrimSpace` on the character list: drop leading
whitespace, then drop trailing whitespace (via reverse). -/
def trimList (l : List Char) : List Char :=
  (((l.dropWhile Char.isWhitespace).reverse).dropWhile Char.isWhitespace).reverse

/-- Model of Go `strings.TrimSpace`. -/
def trimSpace (s : String) : String :=
  String.mk (trimList s.data)

/-- Model of Go `strings.ToLower`: lower-case every character. -/
def toLowerGo (s : String) : String :=
  String.mk (s.data.map Char.toLower)

/-! ## internal/config/config.go -/

/-- `config.ProviderConfig`: one named provider profile (`api_key`,
`base_url`, `model`). -/
structure ProviderConfig where
  APIKey : String
  BaseURL : String
  Model : String
deriving Repr, DecidableEq

/-- `config.Config`: the parsed YAML document, with the flat top-level
fields and the optional multi-provider map. -/
structure Config where
  Provider : String
  Providers : List (String × ProviderConfig)
  APIKey : String
  BaseURL : String
  Model : String
deriving Repr, DecidableEq

/-- `config.Load`, after the file has been read and unmarshalled (reading
and YAML parsing are external collaborators; this is the validation and
flattening logic of lines 106-134 of `internal/config/config.go`).
Error messages keep the source wording minus the config-file path. -/
def Load (cfg : Config) : Except String Config :=
  if cfg.Providers.length > 0 then
    if cfg.Provider = "" then
      .error "provider is empty"
    else
      match cfg.Providers.lookup cfg.Provider with
      | none => .error ("provider " ++ cfg.Provider ++ " not found under providers")
      | some providerCfg =>
        if providerCfg.APIKey = "" then
          .error ("api_key for provider " ++ cfg.Provider ++ " is empty")
        else
          .ok { cfg with
                  APIKey := providerCfg.APIKey
                  BaseURL := providerCfg.BaseURL
                  Model := providerCfg.Model }
  else
    if cfg.APIKey = "" then
      .error "api_key is empty"
    else
      .ok cfg

/-! ## internal/ai/provider.go -/

/-- Package-level constant `defaultModel` of `internal/ai`. -/
def defaultModel : String := "gpt-4o-mini"

/-- `ai.OpenAICompatibleProvider`: the constructed provider. The go-openai
client object is represented by the data that configures it: the base URL
(empty string means the library default, i.e. official OpenAI), the API key,
and the chosen model. -/
structure OpenAICompatibleProvider where
  baseURL : String
  apiKey : String
  model : String
deriving Repr, DecidableEq

/-- `ai.NewOpenAICompatibleProvider` (lines 38-61 of
`internal/ai/provider.go`): trims the inputs, rejects an empty API key,
keeps an empty baseURL as "library default", falls back to `defaultModel`
when the model is empty. -/
def NewOpenAICompatibleProvider (baseURL apiKey model : String) :
    Except String OpenAICompatibleProvider :=
  let apiKey := trimSpace apiKey
  if apiKey = "" then
    .error "apiKey 不能为空"
  else
    let baseURL := trimSpace baseURL
    let model := trimSpace model
    let model := if model = "" then defaultModel else model
    .ok { baseURL := baseURL, apiKey := apiKey, model := model }

/-- The provider-name switch inside `ai.NewProvider` (lines 128-161 of
`internal/ai/provider.go`): given the lower-cased trimmed provider name and
the trimmed (baseURL, model), fill provider-specific defaults for
recognized names. -/
def resolveDefaults (providerName baseURL model : String) : String × String :=
  if providerName = "deepseek" then
    (if baseURL = "" then "https://api.deepseek.com" else baseURL,
     if model = "" then "deepseek-coder" else model)
  else if providerName = "qwen" ∨ providerName = "tongyi" ∨
      providerName = "ali" ∨ providerName = "aliyun" then
    (if baseURL = "" then "https://dashscope.aliyuncs.com/compatible-mode/v1" else baseURL,
     if model = "" then "qwen-turbo" else model)
  else if providerName = "openai" ∨ providerName = "" then
    -- official OpenAI or legacy single config: baseURL untouched, model falls back
    (baseURL, if model = "" then defaultModel else model)
  else
    -- custom compatible service: respect base_url and model from the file
    (baseURL, if model = "" then defaultModel else model)

/-- `ai.NewProvider` (lines 117-164 of `internal/ai/provider.go`). -/
def NewProvider (cfg : Config) : Except String OpenAICompatibleProvider :=
  let apiKey := trimSpace cfg.APIKey
  if apiKey = "" then
    .error "配置中的 api_key 不能为空"
  else
    let baseURL := trimSpace cfg.BaseURL
    let model := trimSpace cfg.Model
    let providerName := toLowerGo (trimSpace cfg.Provider)
    let resolved := resolveDefaults providerName baseURL model
    NewOpenAICompatibleProvider resolved.1 apiKey resolved.2

/-- One message of a chat-completion response (`resp.Choices[i].Message`). -/
structure ChatMessage where
  content : String
deriving Repr, DecidableEq

/-- One choice of a chat-completion response. -/
structure ChatChoice where
  message : ChatMessage
deriving Repr, DecidableEq

/-- A chat-completion response: the list of choices. -/
structure ChatResponse where
  choices : List ChatChoice
deriving Repr, DecidableEq

/-- `OpenAICompatibleProvider.Chat` (lines 64-101 of
`internal/ai/provider.go`). The HTTP round-trip
(`client.CreateChatCompletion`) is the external collaborator; its outcome
for this request is the `transport` argument. -/
def Chat (transport : Except String ChatResponse) (prompt : String) :
    Except String String :=
  let prompt := trimSpace prompt
  if prompt = "" then
    .error "prompt 不能为空"
  else
    match transport with
    | .error e => .error ("调用 OpenAI 兼容接口失败: " ++ e)
    | .ok resp =>
      match resp.choices with
      | [] => .error "LLM 返回结果为空：没有任何 choices"
      | c :: _ =>
        let content := trimSpace c.message.content
        if content = "" then
          .error "LLM 返回的内容为空"
        else
          .ok content

/-! ## cmd/config.go

The mutating commands treat the on-disk document as an untyped nested map
(`map[string]interface{}`). We model the shapes the commands actually
read/write: the top-level keys `provider`, `providers`, `api_key`, and per
provider the keys `api_key`, `base_url`, `model`; `Option` distinguishes an
absent key (Go `nil`) from a present value. -/

/-- One entry of the `providers` map in the YAML document, as manipulated
by `config set-key`. -/
structure DocEntry where
  api_key : Option String
  base_url : Option String
  model : Option String
deriving Repr, DecidableEq

/-- The YAML document as manipulated by the `config` subcommands. -/
structure Doc where
  provider : Option String
  providers : Option (List (String × DocEntry))
  api_key : Option String
deriving Repr, DecidableEq

/-- Go map assignment `providers[provider] = providerConfig` on the
association-list model: replace the entry when the key is present,
otherwise append it. -/
def setEntry (l : List (String × DocEntry)) (k : String) (v : DocEntry) :
    List (String × DocEntry) :=
  if l.lookup k = none then l ++ [(k, v)]
  else l.map fun kv => if kv.1 = k then (k, v) else kv

/-- The default-filling block of `setKeyCmd` (lines 79-97 of
`cmd/config.go`): only when the entry has no `base_url` yet, switch on the
provider name (case-sensitively, exactly as the Go `switch provider`). -/
def fillProviderDefaults (provider : String) (e : DocEntry) : DocEntry :=
  if e.base_url = none then
    if provider = "deepseek" then
      { e with base_url := some "https://api.deepseek.com",
               model := if e.model = none then some "deepseek-coder" else e.model }
    else if provider = "qwen" ∨ provider = "tongyi" ∨
        provider = "ali" ∨ provider = "aliyun" then
      { e with base_url := some "https://dashscope.aliyuncs.com/compatible-mode/v1",
               model := if e.model = none then some "qwen-turbo" else e.model }
    else if provider = "openai" then
      { e with model := if e.model = none then some "gpt-4o-mini" else e.model }
    else e
  else e

/-- `setKeyCmd`'s RunE body after the document has been read (lines 54-109
of `cmd/config.go`); an empty or non-existent file is the empty `Doc`.
Returns the document that is then marshalled and written back. -/
def setKeyCmd (doc : Doc) (apiKey provider : String) : Doc :=
  if provider ≠ "" then
    let providers := doc.providers.getD []
    let providerConfig := (providers.lookup provider).getD ⟨none, none, none⟩
    let providerConfig := { providerConfig with api_key := some apiKey }
    let providerConfig := fillProviderDefaults provider providerConfig
    let doc := { doc with providers := some (setEntry providers provider providerConfig) }
    if doc.provider = none ∨ doc.provider = some "" then
      { doc with provider := some provider }
    else
      doc
  else
    { doc with api_key := some apiKey }

/-- `setProviderCmd`'s RunE body (lines 131-184 of `cmd/config.go`).
`none` for the document means the file does not exist. `.error` means the
command fails before any write; `.ok` is the document written back. -/
def setProviderCmd (doc : Option Doc) (provider : String) : Except String Doc :=
  match doc with
  | none =>
    .error "配置文件不存在，请先使用 config set-key 设置 API Key"
  | some config =>
    match config.providers with
    | none =>
      .error ("未找到多提供商配置，请先使用 config set-key --provider " ++ provider ++
        " 设置该提供商的 API Key")
    | some providers =>
      if providers.lookup provider = none then
        .error ("提供商 " ++ provider ++ " 不存在，请先使用 config set-key --provider " ++
          provider ++ " 设置该提供商的 API Key")
      else
        .ok { config with provider := some provider }

/-! ## internal/ui/model.go -/

/-- `reviewLoadedMsg`: the single completion message of the background
review run. Go `nil` slices/maps and empty ones are both `[]`. -/
structure reviewLoadedMsg where
  files : List String
  reviews : List (String × String)
  err : Option String
deriving Repr, DecidableEq

/-- Model of Go `strings.Contains s pat`. -/
def strContains (s pat : String) : Bool :=
  decide (pat.data <:+: s.data)

/-- `getFileStagedDiff` (lines 158-178 of `internal/ui/model.go`): the git
subprocess is the collaborator; `raw` is its combined output and `cmdErr`
the error of `cmd.CombinedOutput` (`none` when the command succeeded). -/
def getFileStagedDiff (file : String) (raw : String) (cmdErr : Option String) :
    Except String String :=
  let output := trimSpace raw
  match cmdErr with
  | some e =>
    if strContains output "not a git repository" then
      .error ("当前目录不是 git 仓库：" ++ output)
    else if output ≠ "" then
      .error ("执行 git diff 失败：" ++ output)
    else
      .error ("执行 git diff 失败：" ++ e)
  | none =>
    if output = "" then
      .error ("文件 " ++ file ++ " 在暂存区没有 diff 输出")
    else
      .ok output

/-- The fixed system instructions of `buildReviewPrompt` (lines 377-409 of
`internal/ui/model.go`). -/
def reviewSystemPrompt : String :=
  "你是一名资深 Golang 专家，擅长设计高可读性、可维护且鲁棒的 Go 代码。\n现在请你扮演“代码审查助手”，针对给定的 Git diff 进行严格的代码评审，重点关注：\n\n1. 安全性：\n   - 输入校验是否充分\n   - 是否存在潜在的注入风险、越界访问、竞争条件等\n   - 敏感信息（如密钥、token、密码）是否有泄露风险\n\n2. 错误处理：\n   - 错误是否被忽略或吞掉\n   - 错误信息是否清晰、能帮助定位问题\n   - 是否合理使用 error wrapping 以及日志\n\n3. 性能与资源使用：\n   - 算法与数据结构是否合理\n   - 是否存在明显的多余分配或重复计算\n   - I/O、网络、并发是否可能成为瓶颈\n\n请以 Markdown 格式输出审查结果，建议结构示例：\n\n## 总体评价\n- 简要评价这次变更的整体质量。\n\n## 主要风险与问题\n- 按严重程度列出主要问题，并引用相关代码片段或行号（如果 diff 中有）。\n\n## 优化建议\n- 给出可以改进的地方，包括安全、错误处理和性能方面的具体建议。\n\n## 认可的优点\n- 指出本次改动中值得保留或学习的写法。\n\n回复时只需要给出审查内容，无需重复贴出完整 diff。"

/-- `buildReviewPrompt` (lines 371-417 of `internal/ui/model.go`). -/
def buildReviewPrompt (diff : String) : String :=
  let diff := trimSpace diff
  if diff = "" then
    "暂存区 diff 为空，无需审查。"
  else
    let userPrompt :=
      "请审查以下 Git diff（只读即可，不需要给出可直接应用的 patch），并按照上述要求返回 Markdown 格式的审查报告：\n\n```diff\n" ++
        diff ++ "\n```"
    reviewSystemPrompt ++ "\n\n" ++ userPrompt

/-- The per-file loop of `loadReviewsCmd` (lines 125-146 of
`internal/ui/model.go`): sequentially fetch each file's diff, build the
prompt, call the chat collaborator; the first failure aborts the whole run
with the wrapping error; on success accumulate `(file, reply)` in listing
order. -/
def reviewFiles (diffOf : String → Except String String)
    (chat : String → Except String String) :
    List String → Except String (List (String × String))
  | [] => .ok []
  | f :: rest =>
    match diffOf f with
    | .error e => .error ("获取文件 " ++ f ++ " 的 diff 失败：" ++ e)
    | .ok diff =>
      match chat (buildReviewPrompt diff) with
      | .error e => .error ("审查文件 " ++ f ++ " 失败：" ++ e)
      | .ok reply =>
        match reviewFiles diffOf chat rest with
        | .error e => .error e
        | .ok reviews => .ok ((f, reply) :: reviews)

/-- `loadReviewsCmd` (lines 106-154 of `internal/ui/model.go`). The
collaborators are the outcome of `gitops.GetChangedFiles` (`filesRes`), the
per-file staged-diff fetch (`diffOf`, the outcome of `getFileStagedDiff`
for that file) and the provider's chat call (`chat`); the provider being
present is implicit in the `chat` function. -/
def loadReviewsCmd (filesRes : Except String (List String))
    (diffOf chat : String → Except String String) : reviewLoadedMsg :=
  match filesRes with
  | .error e => { files := [], reviews := [], err := some ("获取暂存区文件失败：" ++ e) }
  | .ok files =>
    if files.isEmpty then
      { files := [], reviews := [], err := none }
    else
      match reviewFiles diffOf chat files with
      | .error e => { files := [], reviews := [], err := some e }
      | .ok reviews => { files := files, reviews := reviews, err := none }

/-- `ui.Model`: the Bubble Tea state machine. The spinner model is reduced
to its tick counter (its visual state is collaborator-owned). -/
structure Model where
  files : List String
  reviews : List (String × String)
  loading : Bool
  selected : Int
  spinnerTicks : Nat
  width : Int
  height : Int
  err : Option String
deriving Repr, DecidableEq

/-- `ui.NewModel` (lines 80-93 of `internal/ui/model.go`). -/
def NewModel : Model :=
  { files := [], reviews := [], loading := true, selected := 0,
    spinnerTicks := 0, width := 0, height := 0, err := none }

/-- The messages handled by `Model.Update`: window resizes, spinner ticks,
the orchestrator's completion message, and key events (as produced by
`msg.String()`). -/
inductive Msg where
  | windowSize (width height : Int)
  | spinnerTick
  | reviewLoaded (msg : reviewLoadedMsg)
  | key (k : String)

/-- `Model.Update` (lines 181-234 of `internal/ui/model.go`); the returned
`Bool` is true exactly when the command is `tea.Quit`. -/
def Model.Update (m : Model) : Msg → Model × Bool
  | .windowSize w h => ({ m with width := w, height := h }, false)
  | .spinnerTick =>
    if m.loading then ({ m with spinnerTicks := m.spinnerTicks + 1 }, false)
    else (m, false)
  | .reviewLoaded msg =>
    let m := { m with loading := false, err := msg.err }
    if msg.err = none then
      let m := { m with files := msg.files, reviews := msg.reviews }
      if 0 < m.files.length ∧ (m.files.length : Int) ≤ m.selected then
        ({ m with selected := 0 }, false)
      else
        (m, false)
    else
      (m, false)
  | .key k =>
    if k = "q" ∨ k = "ctrl+c" then (m, true)
    else if m.loading ∨ m.err ≠ none then (m, false)
    else if k = "up" ∨ k = "k" then
      (if 0 < m.selected then { m with selected := m.selected - 1 } else m, false)
    else if k = "down" ∨ k = "j" then
      (if m.selected < (m.files.length : Int) - 1 then
        { m with selected := m.selected + 1 }
      else m, false)
    else (m, false)

/-- The lipgloss/glamour rendering collaborators used by
`Model.viewContent`: style renders, the markdown renderer, the horizontal
join, and `centerInTerminal`. -/
structure Renderers where
  infoRender : String → String
  selectedFileRender : String → String
  normalFileRender : String → String
  fileListRender : Int → String → String
  reviewRender : Int → String → String
  renderMarkdown : String → Int → String
  joinHorizontal : String → String → String
  center : String → Int → Int → String

/-- The fixed informational message shown in `Content` with an empty file
list (line 270 of `internal/ui/model.go`). -/
def noChangesMsg : String :=
  "暂存区中没有 .go 文件的变更。\n\n请在 Git 暂存区中添加一些 Go 代码的修改后重新运行。\n\n按 q 退出。"

/-- The placeholder shown when the selected file's review is blank. -/
def placeholderMsg : String := "_该文件暂无审查结果。_"

/-- The placeholder shown when the selection is out of range. -/
def noSelectionMsg : String := "_未选中文件。_"

/-- The review-selection block of `Model.viewContent` (lines 307-317 of
`internal/ui/model.go`): Go's map access with a missing key yields the zero
value `""`. -/
def selectedReviewMD (m : Model) : String :=
  if 0 ≤ m.selected ∧ m.selected < (m.files.length : Int) then
    let file := m.files.getD m.selected.toNat ""
    let reviewMD := (m.reviews.lookup file).getD ""
    if trimSpace reviewMD = "" then placeholderMsg else reviewMD
  else
    noSelectionMsg

/-- `Model.viewContent` (lines 268-329 of `internal/ui/model.go`). -/
def viewContent (r : Renderers) (m : Model) : String :=
  if m.files.length = 0 then
    r.center (r.infoRender noChangesMsg) m.width m.height
  else
    let totalWidth := if m.width ≤ 0 then 100 else m.width
    let leftWidth := totalWidth / 4
    let leftWidth := if leftWidth < 20 then 20 else leftWidth
    let rightWidth := totalWidth - leftWidth - 4
    let rightWidth := if rightWidth < 20 then 20 else rightWidth
    let fileLines := (List.range m.files.length).map fun i =>
      let f := m.files.getD i ""
      if (i : Int) = m.selected then r.selectedFileRender ("> " ++ f)
      else r.normalFileRender ("  " ++ f)
    let fileList := String.intercalate "\n" fileLines
    let fileListBox := r.fileListRender leftWidth fileList
    let renderedReview := r.renderMarkdown (selectedReviewMD m) rightWidth
    let reviewBox := r.reviewRender rightWidth renderedReview
    r.joinHorizontal fileListBox reviewBox

end ReviewGo

namespace ReviewGo

theorem dropWhile_dropWhile (p : Char → Bool) (l : List Char) :
    (l.dropWhile p).dropWhile p = l.dropWhile p := by
  induction l with
  | nil => rfl
  | cons a l ih =>
    by_cases h : p a
    · simp [List.dropWhile_cons_of_pos h, ih]
    · simp [List.dropWhile_cons_of_neg h]

theorem dropWhile_suffix (p : Char → Bool) (l : List Char) :
    l.dropWhile p <:+ l := by
  induction l with
  | nil => exact List.suffix_refl _
  | cons a l ih =>
    by_cases h : p a
    · simpa [List.dropWhile_cons_of_pos h] using ih.trans (List.suffix_cons a l)
    · simp [List.dropWhile_cons_of_neg h]

theorem dropWhile_eq_self_of_prefix (p : Char → Bool) {l l' : List Char}
    (hpre : l <+: l') (h : l'.dropWhile p = l') : l.dropWhile p = l := by
  cases l with
  | nil => rfl
  | cons a t =>
    cases l' with
    | nil => simp at hpre
    | cons b t' =>
      obtain ⟨u, hu⟩ := hpre
      have hab : a = b := by
        have hh := congrArg List.head? hu
        simpa using hh
      by_cases hb : p b
      · rw [List.dropWhile_cons_of_pos hb] at h
        have hle := (dropWhile_suffix p t').length_le
        rw [h] at hle
        simp at hle
      · rw [hab]
        exact List.dropWhile_cons_of_neg hb

theorem trimList_idem (l : List Char) : trimList (trimList l) = trimList l := by
  have hu := dropWhile_dropWhile Char.isWhitespace l
  -- the trimmed list is a prefix of the front-trimmed list, hence front-trimmed
  have hpre : trimList l <+: l.dropWhile Char.isWhitespace := by
    have hs := dropWhile_suffix Char.isWhitespace (l.dropWhile Char.isWhitespace).reverse
    have h2 := List.reverse_prefix.mpr hs
    simpa [trimList] using h2
  have hfront : (trimList l).dropWhile Char.isWhitespace = trimList l :=
    dropWhile_eq_self_of_prefix Char.isWhitespace hpre hu
  have hback : ((trimList l).reverse).dropWhile Char.isWhitespace = (trimList l).reverse := by
    simp only [trimList, List.reverse_reverse]
    exact dropWhile_dropWhile Char.isWhitespace _
  calc trimList (trimList l)
      = (((trimList l).dropWhile Char.isWhitespace).reverse.dropWhile
          Char.isWhitespace).reverse := rfl
    _ = ((trimList l).reverse.dropWhile Char.isWhitespace).reverse := by rw [hfront]
    _ = ((trimList l).reverse).reverse := by rw [hback]
    _ = trimList l := by simp

theorem trimSpace_idem (s : String) : trimSpace (trimSpace s) = trimSpace s :=
  congrArg String.mk (trimList_idem s.data)

/-- C1: configuration loading (after the file is read and parsed) fails
exactly when: the providers map is non-empty and the default-provider name
is empty, or names a key absent from the map, or the named profile's apiKey
is empty; or the providers map is empty/absent and the flat top-level
api_key is empty.  In every successful multi-provider load the returned
configuration's flat APIKey, BaseURL and Model equal the corresponding
fields of the selected provider's profile. -/
theorem C1_load_spec (cfg : Config) :
    ((Load cfg).isOk = false ↔
      (cfg.Providers ≠ [] ∧
        (cfg.Provider = "" ∨ cfg.Providers.lookup cfg.Provider = none ∨
          ∃ pc, cfg.Providers.lookup cfg.Provider = some pc ∧ pc.APIKey = "")) ∨
      (cfg.Providers = [] ∧ cfg.APIKey = "")) ∧
    (∀ pc out, cfg.Providers ≠ [] → cfg.Providers.lookup cfg.Provider = some pc →
      Load cfg = .ok out →
      out.APIKey = pc.APIKey ∧ out.BaseURL = pc.BaseURL ∧ out.Model = pc.Model) := by
  constructor
  · rcases hps : cfg.Providers with _ | ⟨hd, tl⟩
    · by_cases hk : cfg.APIKey = "" <;>
        simp [Load, hps, hk, Except.isOk, Except.toBool]
    · by_cases hp : cfg.Provider = ""
      · simp [Load, hps, hp, Except.isOk, Except.toBool]
      · rcases hl : (hd :: tl).lookup cfg.Provider with _ | pc
        · simp [Load, hps, hp, hl, Except.isOk, Except.toBool]
        · by_cases hk : pc.APIKey = "" <;>
            simp [Load, hps, hp, hl, hk, Except.isOk, Except.toBool]
  · intro pc out hne hl hload
    have hlen : 0 < cfg.Providers.length := List.length_pos.mpr hne
    by_cases hp : cfg.Provider = ""
    · simp [Load, hlen, hp] at hload
    · by_cases hk : pc.APIKey = ""
      · simp [Load, hlen, hp, hl, hk] at hload
      · simp [Load, hlen, hp, hl, hk] at hload
        subst hload
        simp

/-- C1 witness: a concrete successful multi-provider load whose flat
fields are the selected profile's. -/
theorem C1_load_spec_witness :
    (Config.mk "a" [("a", ⟨"k", "u", "m"⟩)] "k" "u" "m").APIKey = ("k" : String) ∧
    (Config.mk "a" [("a", ⟨"k", "u", "m"⟩)] "k" "u" "m").BaseURL = ("u" : String) ∧
    (Config.mk "a" [("a", ⟨"k", "u", "m"⟩)] "k" "u" "m").Model = ("m" : String) :=
  (C1_load_spec ⟨"a", [("a", ⟨"k", "u", "m"⟩)], "x", "y", "z"⟩).2
    ⟨"k", "u", "m"⟩ ⟨"a", [("a", ⟨"k", "u", "m"⟩)], "k", "u", "m"⟩
    (by decide) (by decide) rfl

theorem trimSpace_empty : trimSpace "" = "" := rfl

theorem newProvider_ok (cfg : Config) (hk : ¬ trimSpace cfg.APIKey = "") :
    NewProvider cfg = .ok
      { baseURL := trimSpace (resolveDefaults (toLowerGo (trimSpace cfg.Provider))
          (trimSpace cfg.BaseURL) (trimSpace cfg.Model)).1,
        apiKey := trimSpace cfg.APIKey,
        model :=
          if trimSpace (resolveDefaults (toLowerGo (trimSpace cfg.Provider))
              (trimSpace cfg.BaseURL) (trimSpace cfg.Model)).2 = "" then defaultModel
          else trimSpace (resolveDefaults (toLowerGo (trimSpace cfg.Provider))
              (trimSpace cfg.BaseURL) (trimSpace cfg.Model)).2 } := by
  simp [NewProvider, NewOpenAICompatibleProvider, hk, trimSpace_idem]

/-- C2: provider resolution, for every configuration whose trimmed apiKey
is non-empty, matches the trimmed provider name case-insensitively and
fills only unset fields (deepseek and the qwen family get their default
endpoint/model, openai and the empty name leave an unset baseURL empty and
fall back to the global default model, unrecognized names keep the
configured baseURL and fall back to the same default model); an already-set
baseURL or model is never overwritten, and resolution fails exactly when
the trimmed apiKey is empty. -/
theorem C2_newProvider_spec (cfg : Config) :
    ((NewProvider cfg).isOk = false ↔ trimSpace cfg.APIKey = "") ∧
    (∀ p, NewProvider cfg = .ok p →
      p.apiKey = trimSpace cfg.APIKey ∧
      (toLowerGo (trimSpace cfg.Provider) = "deepseek" →
        (trimSpace cfg.BaseURL = "" → p.baseURL = "https://api.deepseek.com") ∧
        (trimSpace cfg.Model = "" → p.model = "deepseek-coder")) ∧
      ((toLowerGo (trimSpace cfg.Provider) = "qwen" ∨
        toLowerGo (trimSpace cfg.Provider) = "tongyi" ∨
        toLowerGo (trimSpace cfg.Provider) = "ali" ∨
        toLowerGo (trimSpace cfg.Provider) = "aliyun") →
        (trimSpace cfg.BaseURL = "" →
          p.baseURL = "https://dashscope.aliyuncs.com/compatible-mode/v1") ∧
        (trimSpace cfg.Model = "" → p.model = "qwen-turbo")) ∧
      ((toLowerGo (trimSpace cfg.Provider) = "openai" ∨
        toLowerGo (trimSpace cfg.Provider) = "") →
        (trimSpace cfg.BaseURL = "" → p.baseURL = "") ∧
        (trimSpace cfg.Model = "" → p.model = defaultModel)) ∧
      (toLowerGo (trimSpace cfg.Provider) ∉
          (["deepseek", "qwen", "tongyi", "ali", "aliyun", "openai", ""] : List String) →
        p.baseURL = trimSpace cfg.BaseURL ∧
        (trimSpace cfg.Model = "" → p.model = defaultModel)) ∧
      (trimSpace cfg.BaseURL ≠ "" → p.baseURL = trimSpace cfg.BaseURL) ∧
      (trimSpace cfg.Model ≠ "" → p.model = trimSpace cfg.Model)) := by
  constructor
  · by_cases hk : trimSpace cfg.APIKey = ""
    · simp [NewProvider, hk, Except.isOk, Except.toBool]
    · rw [newProvider_ok cfg hk]
      simp [hk, Except.isOk, Except.toBool]
  · intro p hp
    by_cases hk : trimSpace cfg.APIKey = ""
    · simp [NewProvider, hk] at hp
    · rw [newProvider_ok cfg hk] at hp
      injection hp with hp
      subst hp
      refine ⟨rfl, ?_, ?_, ?_, ?_, ?_, ?_⟩
      · intro hn
        constructor
        · intro hb
          simp [resolveDefaults, hn, hb]
          decide
        · intro hm
          by_cases hb : trimSpace cfg.BaseURL = "" <;>
            simp [resolveDefaults, hn, hb, hm] <;> decide
      · intro hn
        have hq : (toLowerGo (trimSpace cfg.Provider) = "deepseek") = False := by
          rcases hn with h | h | h | h <;> simp [h]
        constructor
        · intro hb
          rcases hn with h | h | h | h <;>
            · simp [resolveDefaults, hq, h, hb]
              decide
        · intro hm
          rcases hn with h | h | h | h <;>
            by_cases hb : trimSpace cfg.BaseURL = "" <;>
              · simp [resolveDefaults, hq, h, hb, hm]
                decide
      · intro hn
        have h1 : (toLowerGo (trimSpace cfg.Provider) = "deepseek") = False := by
          rcases hn with h | h <;> simp [h]
        have h2 : (toLowerGo (trimSpace cfg.Provider) = "qwen" ∨
            toLowerGo (trimSpace cfg.Provider) = "tongyi" ∨
            toLowerGo (trimSpace cfg.Provider) = "ali" ∨
            toLowerGo (trimSpace cfg.Provider) = "aliyun") = False := by
          rcases hn with h | h <;> simp [h]
        constructor
        · intro hb
          simp [resolveDefaults, h1, h2, hn, hb, trimSpace_empty]
        · intro hm
          rcases hn with h | h <;>
            by_cases hb : trimSpace cfg.BaseURL = "" <;>
              simp [resolveDefaults, h1, h2, h, hb, hm, defaultModel] <;> decide
      · intro hn
        simp only [List.mem_cons, List.not_mem_nil, or_false, not_or] at hn
        obtain ⟨n1, n2, n3, n4, n5, n6, n7⟩ := hn
        constructor
        · simp [resolveDefaults, n1, n2, n3, n4, n5, n6, n7, trimSpace_idem]
        · intro hm
          simp [resolveDefaults, n1, n2, n3, n4, n5, n6, n7, hm, defaultModel]
          decide
      · intro hb
        simp only [resolveDefaults]
        split_ifs <;> simp_all [trimSpace_idem]
      · intro hm
        have hts : trimSpace (trimSpace cfg.Model) = trimSpace cfg.Model :=
          trimSpace_idem _
        simp only [resolveDefaults]
        split_ifs <;> simp_all [trimSpace_idem]

/-- C2 witness: a concrete deepseek configuration with unset baseURL and
model resolves to the DeepSeek defaults. -/
theorem C2_newProvider_spec_witness :
    ({ baseURL := "https://api.deepseek.com", apiKey := "sk",
       model := "deepseek-coder" } : OpenAICompatibleProvider).apiKey =
      trimSpace " sk " ∧
    ({ baseURL := "https://api.deepseek.com", apiKey := "sk",
       model := "deepseek-coder" } : OpenAICompatibleProvider).baseURL =
      ("https://api.deepseek.com" : String) := by
  have h := (C2_newProvider_spec ⟨"deepseek", [], " sk ", "", ""⟩).2
    ⟨"https://api.deepseek.com", "sk", "deepseek-coder"⟩ rfl
  exact ⟨h.1.symm ▸ rfl, (h.2.1 (by decide)).1 (by decide)⟩

/-- C6 counterexample: the claim says a response containing some choice
with non-blank text is treated as successful; but with a blank first
choice and a non-blank second choice, a non-blank prompt and a successful
transport, the call still fails (the code inspects only the first
choice). -/
theorem C6_chat_counterexample :
    (∃ c, c ∈ (ChatResponse.mk [⟨⟨" "⟩⟩, ⟨⟨"ok"⟩⟩]).choices ∧
      trimSpace c.message.content ≠ "") ∧
    trimSpace "hi" ≠ "" ∧
    (Chat (.ok (ChatResponse.mk [⟨⟨" "⟩⟩, ⟨⟨"ok"⟩⟩])) "hi").isOk = false := by
  refine ⟨⟨⟨⟨"ok"⟩⟩, by simp, by decide⟩, by decide, by decide⟩

/-- C6 (amended): the chat call fails exactly when the trimmed prompt is
blank, the transport call returns an error, the response's choice list is
empty, or the FIRST choice's trimmed text is blank; on success it returns
the first choice's trimmed text. -/
theorem C6_chat_spec (t : Except String ChatResponse) (prompt : String) :
    ((Chat t prompt).isOk = false ↔
      trimSpace prompt = "" ∨ (∃ e, t = .error e) ∨
      (∃ resp, t = .ok resp ∧ (resp.choices = [] ∨
        ∃ c cs, resp.choices = c :: cs ∧ trimSpace c.message.content = ""))) ∧
    (∀ resp c cs, t = .ok resp → resp.choices = c :: cs →
      trimSpace prompt ≠ "" → trimSpace c.message.content ≠ "" →
      Chat t prompt = .ok (trimSpace c.message.content)) := by
  constructor
  · by_cases hp : trimSpace prompt = ""
    · simp [Chat, hp, Except.isOk, Except.toBool]
    · rcases t with e | resp
      · simp [Chat, hp, Except.isOk, Except.toBool]
      · rcases hc : resp.choices with _ | ⟨c, cs⟩
        · simp [Chat, hp, hc, Except.isOk, Except.toBool]
        · by_cases hb : trimSpace c.message.content = "" <;>
            simp [Chat, hp, hc, hb, Except.isOk, Except.toBool]
  · intro resp c cs ht hc hp hb
    subst ht
    simp [Chat, hp, hc, hb]

/-- C6 witness: a concrete successful chat call returning the first
choice's trimmed text. -/
theorem C6_chat_spec_witness :
    Chat (.ok (ChatResponse.mk [⟨⟨" hi "⟩⟩])) "p" = .ok (trimSpace " hi ") :=
  (C6_chat_spec (.ok (ChatResponse.mk [⟨⟨" hi "⟩⟩])) "p").2
    ⟨[⟨⟨" hi "⟩⟩]⟩ ⟨⟨" hi "⟩⟩ [] rfl rfl (by decide) (by decide)

/-- C7: "config set-provider P" fails with a message naming the missing
precondition — and produces no document to write — whenever the document
does not exist, contains no multi-provider map, or the map lacks key P;
when the preconditions hold it rewrites the full document with only the
default-provider field changed to P. -/
theorem C7_setProvider_spec (p : String) :
    (setProviderCmd none p =
      .error "配置文件不存在，请先使用 config set-key 设置 API Key") ∧
    (∀ config : Doc, config.providers = none →
      setProviderCmd (some config) p =
        .error ("未找到多提供商配置，请先使用 config set-key --provider " ++ p ++
          " 设置该提供商的 API Key")) ∧
    (∀ (config : Doc) providers, config.providers = some providers →
      providers.lookup p = none →
      setProviderCmd (some config) p =
        .error ("提供商 " ++ p ++ " 不存在，请先使用 config set-key --provider " ++ p ++
          " 设置该提供商的 API Key")) ∧
    (∀ (config : Doc) providers, config.providers = some providers →
      providers.lookup p ≠ none →
      setProviderCmd (some config) p = .ok { config with provider := some p }) := by
  refine ⟨rfl, ?_, ?_, ?_⟩
  · intro config h
    simp [setProviderCmd, h]
  · intro config providers h hl
    simp [setProviderCmd, h, hl]
  · intro config providers h hl
    simp [setProviderCmd, h, hl]

/-- C7 witness: set-provider on a document without a providers map fails
with the precondition message. -/
theorem C7_setProvider_spec_witness :
    setProviderCmd (some ⟨none, none, none⟩) "foo" =
      .error ("未找到多提供商配置，请先使用 config set-key --provider " ++ "foo" ++
        " 设置该提供商的 API Key") :=
  (C7_setProvider_spec "foo").2.1 ⟨none, none, none⟩ rfl

/-- C3 counterexample: "Deepseek" matches the recognized provider name
"deepseek" case-insensitively, yet running set-key with it on an empty
document fills no base_url/model defaults — the command's name table is
case-sensitive, refuting the claim as stated. -/
theorem C3_setKey_counterexample :
    toLowerGo "Deepseek" = "deepseek" ∧
    ¬ ((setKeyCmd ⟨none, none, none⟩ "ABC123" "Deepseek").providers.getD []).lookup
        "Deepseek" =
      some ⟨some "ABC123", some "https://api.deepseek.com", some "deepseek-coder"⟩ := by
  exact ⟨by decide, by decide⟩

/-- C3 (amended): running "config set-key K --provider P" on an empty or
non-existent configuration document, where P exactly equals a recognized
provider name (the table matches case-sensitively), produces a document
whose providers.P entry has api_key K and that provider's default base_url
and model (for openai: no base_url, only the default model), and whose
top-level default provider is P; in particular for P = "deepseek",
K = "ABC123" the entry carries the DeepSeek endpoint and model. -/
theorem C3_setKey_spec (apiKey : String) :
    setKeyCmd ⟨none, none, none⟩ apiKey "deepseek" =
      ⟨some "deepseek",
       some [("deepseek",
         ⟨some apiKey, some "https://api.deepseek.com", some "deepseek-coder"⟩)],
       none⟩ ∧
    setKeyCmd ⟨none, none, none⟩ apiKey "qwen" =
      ⟨some "qwen",
       some [("qwen",
         ⟨some apiKey, some "https://dashscope.aliyuncs.com/compatible-mode/v1",
          some "qwen-turbo"⟩)],
       none⟩ ∧
    setKeyCmd ⟨none, none, none⟩ apiKey "tongyi" =
      ⟨some "tongyi",
       some [("tongyi",
         ⟨some apiKey, some "https://dashscope.aliyuncs.com/compatible-mode/v1",
          some "qwen-turbo"⟩)],
       none⟩ ∧
    setKeyCmd ⟨none, none, none⟩ apiKey "ali" =
      ⟨some "ali",
       some [("ali",
         ⟨some apiKey, some "https://dashscope.aliyuncs.com/compatible-mode/v1",
          some "qwen-turbo"⟩)],
       none⟩ ∧
    setKeyCmd ⟨none, none, none⟩ apiKey "aliyun" =
      ⟨some "aliyun",
       some [("aliyun",
         ⟨some apiKey, some "https://dashscope.aliyuncs.com/compatible-mode/v1",
          some "qwen-turbo"⟩)],
       none⟩ ∧
    setKeyCmd ⟨none, none, none⟩ apiKey "openai" =
      ⟨some "openai", some [("openai", ⟨some apiKey, none, some "gpt-4o-mini"⟩)],
       none⟩ :=
  ⟨rfl, rfl, rfl, rfl, rfl, rfl⟩

/-- C8: provider-default filling is idempotent — applying the
recognized-name default-filling step to an already-resolved
(baseURL, model) pair yields the identical pair. -/
theorem C8_resolveDefaults_idem (name baseURL model : String) :
    resolveDefaults name (resolveDefaults name baseURL model).1
      (resolveDefaults name baseURL model).2 =
    resolveDefaults name baseURL model := by
  unfold resolveDefaults
  split_ifs <;> simp_all

theorem reviewFiles_append_error (diffOf chat : String → Except String String)
    (pre post : List String) (f : String)
    (hpre : ∀ g ∈ pre, ∃ d r, diffOf g = .ok d ∧ chat (buildReviewPrompt d) = .ok r)
    (hf : (∃ e, diffOf f = .error e) ∨
      (∃ d e, diffOf f = .ok d ∧ chat (buildReviewPrompt d) = .error e)) :
    (∃ e, diffOf f = .error e ∧
      reviewFiles diffOf chat (pre ++ f :: post) =
        .error ("获取文件 " ++ f ++ " 的 diff 失败：" ++ e)) ∨
    (∃ d e, diffOf f = .ok d ∧ chat (buildReviewPrompt d) = .error e ∧
      reviewFiles diffOf chat (pre ++ f :: post) =
        .error ("审查文件 " ++ f ++ " 失败：" ++ e)) := by
  induction pre with
  | nil =>
    rcases hf with ⟨e, he⟩ | ⟨d, e, hd, he⟩
    · exact Or.inl ⟨e, he, by simp [reviewFiles, he]⟩
    · exact Or.inr ⟨d, e, hd, he, by simp [reviewFiles, hd, he]⟩
  | cons g pre ih =>
    obtain ⟨d, r, hd, hr⟩ := hpre g (by simp)
    have ih' := ih fun g' hg' => hpre g' (by simp [hg'])
    rcases ih' with ⟨e, he, heq⟩ | ⟨d', e, hd', he, heq⟩
    · exact Or.inl ⟨e, he, by simp [reviewFiles, hd, hr, heq]⟩
    · exact Or.inr ⟨d', e, hd', he, by simp [reviewFiles, hd, hr, heq]⟩

/-- C4: the orchestrator short-circuits on the first failure — when the
files before `f` all succeed and `f`'s diff fetch or chat call fails, the
completion message carries the error wrapping `f`'s name and operation,
and its file list and result mapping are empty; moreover an individual
file's staged diff coming back empty is itself a failure naming that
file. -/
theorem C4_shortCircuit (diffOf chat : String → Except String String)
    (pre post : List String) (f : String)
    (hpre : ∀ g ∈ pre, ∃ d r, diffOf g = .ok d ∧ chat (buildReviewPrompt d) = .ok r)
    (hf : (∃ e, diffOf f = .error e) ∨
      (∃ d e, diffOf f = .ok d ∧ chat (buildReviewPrompt d) = .error e)) :
    ((loadReviewsCmd (.ok (pre ++ f :: post)) diffOf chat).files = [] ∧
     (loadReviewsCmd (.ok (pre ++ f :: post)) diffOf chat).reviews = [] ∧
     ((∃ e, diffOf f = .error e ∧
        (loadReviewsCmd (.ok (pre ++ f :: post)) diffOf chat).err =
          some ("获取文件 " ++ f ++ " 的 diff 失败：" ++ e)) ∨
      (∃ d e, diffOf f = .ok d ∧ chat (buildReviewPrompt d) = .error e ∧
        (loadReviewsCmd (.ok (pre ++ f :: post)) diffOf chat).err =
          some ("审查文件 " ++ f ++ " 失败：" ++ e)))) ∧
    (∀ file raw, trimSpace raw = "" →
      getFileStagedDiff file raw none =
        .error ("文件 " ++ file ++ " 在暂存区没有 diff 输出")) := by
  constructor
  · have h := reviewFiles_append_error diffOf chat pre post f hpre hf
    have hne : (pre ++ f :: post).isEmpty = false := by simp
    rcases h with ⟨e, he, heq⟩ | ⟨d, e, hd, he, heq⟩
    · refine ⟨?_, ?_, Or.inl ⟨e, he, ?_⟩⟩ <;> simp [loadReviewsCmd, hne, heq]
    · refine ⟨?_, ?_, Or.inr ⟨d, e, hd, he, ?_⟩⟩ <;> simp [loadReviewsCmd, hne, heq]
  · intro file raw h
    simp [getFileStagedDiff, h]

/-- C4 witness: one staged file whose diff fetch fails aborts the run with
the wrapping message and no file list or results. -/
theorem C4_shortCircuit_witness :
    (loadReviewsCmd (.ok ["a.go"]) (fun _ => .error "boom")
      (fun _ => .ok "r")).files = [] ∧
    (loadReviewsCmd (.ok ["a.go"]) (fun _ => .error "boom")
      (fun _ => .ok "r")).err =
      some ("获取文件 " ++ "a.go" ++ " 的 diff 失败：" ++ "boom") := by
  have h := C4_shortCircuit (fun _ => .error "boom") (fun _ => .ok "r") [] [] "a.go"
    (by simp) (Or.inl ⟨"boom", rfl⟩)
  refine ⟨h.1.1, ?_⟩
  rcases h.1.2.2 with ⟨e, he, heq⟩ | ⟨d, e, hd, he, heq⟩
  · simp only [Except.error.injEq] at he
    subst he
    exact heq
  · simp at hd

/-- C5: the selection-cursor invariant — a successful content load leaves
0 ≤ selected < file count whenever the count is positive; every
previous/next navigation key (up/k, down/j) handled in Content moves the
cursor by at most one and keeps it inside [0, count-1]; navigation keys
received while Loading or in Error leave the cursor unchanged. -/
theorem C5_cursor_spec :
    (∀ (m : Model) (msg : reviewLoadedMsg), msg.err = none → 0 ≤ m.selected →
      0 < msg.files.length →
      0 ≤ (m.Update (.reviewLoaded msg)).1.selected ∧
      (m.Update (.reviewLoaded msg)).1.selected < (msg.files.length : Int)) ∧
    (∀ (m : Model) (k : String), (k = "up" ∨ k = "k" ∨ k = "down" ∨ k = "j") →
      m.loading = false → m.err = none →
      ((m.Update (.key k)).1.selected = m.selected ∨
        (m.Update (.key k)).1.selected = m.selected + 1 ∨
        (m.Update (.key k)).1.selected = m.selected - 1) ∧
      (0 ≤ m.selected → 0 ≤ (m.Update (.key k)).1.selected) ∧
      (m.selected < (m.files.length : Int) →
        (m.Update (.key k)).1.selected < (m.files.length : Int))) ∧
    (∀ (m : Model) (k : String), (m.loading = true ∨ m.err ≠ none) →
      (m.Update (.key k)).1.selected = m.selected) := by
  refine ⟨?_, ?_, ?_⟩
  · intro m msg herr hsel hlen
    simp only [Model.Update, herr, reduceIte]
    split_ifs with h
    · constructor
      · simp
      · simpa using hlen
    · simp only [not_and, not_le] at h
      constructor
      · simpa using hsel
      · simpa using h hlen
  · intro m k hk hld herr
    rcases hk with rfl | rfl | rfl | rfl <;>
      simp [Model.Update, hld, herr] <;> split_ifs <;> (try simp) <;> omega
  · intro m k h
    by_cases hq : k = "q" ∨ k = "ctrl+c"
    · simp [Model.Update, hq]
    · rcases h with h | h <;> simp [Model.Update, hq, h]

/-- C5 witness: from a loaded two-file model with the cursor at 0, the
"down" key keeps the cursor inside [0, count-1]. -/
theorem C5_cursor_spec_witness :
    0 ≤ ((Model.mk ["a", "b"] [] false 0 0 0 0 none).Update
      (.key "down")).1.selected ∧
    ((Model.mk ["a", "b"] [] false 0 0 0 0 none).Update
      (.key "down")).1.selected <
      ((Model.mk ["a", "b"] [] false 0 0 0 0 none).files.length : Int) := by
  have h := C5_cursor_spec.2.1 ⟨["a", "b"], [], false, 0, 0, 0, 0, none⟩ "down"
    (by simp) rfl rfl
  exact ⟨h.2.1 (by decide), h.2.2 (by decide)⟩

/-- C9: with zero staged files the orchestrator's completion message is an
empty file list, an empty mapping and no error, and the Content view with
an empty file list is the fixed "no changes" message (through the styling
collaborators). -/
theorem C9_empty_spec (diffOf chat : String → Except String String) :
    loadReviewsCmd (.ok []) diffOf chat = ⟨[], [], none⟩ ∧
    (∀ (r : Renderers) (m : Model), m.files = [] →
      viewContent r m = r.center (r.infoRender noChangesMsg) m.width m.height) := by
  refine ⟨rfl, ?_⟩
  intro r m h
  simp [viewContent, h]

/-- C9 witness: the empty-list completion message, and the no-changes
rendering on the initial model with identity collaborators. -/
theorem C9_empty_spec_witness :
    loadReviewsCmd (.ok []) (fun _ => .ok "") (fun _ => .ok "") = ⟨[], [], none⟩ ∧
    viewContent
      ⟨id, id, id, fun _ s => s, fun _ s => s, fun s _ => s, fun a b => a ++ b,
       fun s _ _ => s⟩ NewModel = noChangesMsg := by
  have h := C9_empty_spec (fun _ => .ok "") (fun _ => .ok "")
  exact ⟨h.1, h.2 ⟨id, id, id, fun _ s => s, fun _ s => s, fun s _ => s,
    fun a b => a ++ b, fun s _ _ => s⟩ NewModel rfl⟩

theorem reviewFiles_ok (diffOf chat : String → Except String String) :
    ∀ (files : List String) (rs : List (String × String)),
      reviewFiles diffOf chat files = .ok rs →
      rs.map Prod.fst = files ∧
      ∀ pr ∈ rs, ∃ d, diffOf pr.1 = .ok d ∧ chat (buildReviewPrompt d) = .ok pr.2 := by
  intro files
  induction files with
  | nil =>
    intro rs h
    simp [reviewFiles] at h
    subst h
    simp
  | cons f rest ih =>
    intro rs h
    rcases hd : diffOf f with e | d
    · simp [reviewFiles, hd] at h
    · rcases hc : chat (buildReviewPrompt d) with e | r
      · simp [reviewFiles, hd, hc] at h
      · rcases hr : reviewFiles diffOf chat rest with e | rs'
        · simp [reviewFiles, hd, hc, hr] at h
        · simp [reviewFiles, hd, hc, hr] at h
          subst h
          obtain ⟨h1, h2⟩ := ih rs' hr
          refine ⟨by simp [h1], ?_⟩
          intro pr hpr
          rcases List.mem_cons.mp hpr with hpr | hpr
          · subst hpr
            exact ⟨d, hd, hc⟩
          · exact h2 pr hpr

theorem chat_ok_trimmed (t : Except String ChatResponse) (p s : String)
    (h : Chat t p = .ok s) : trimSpace s = s ∧ s ≠ "" := by
  by_cases hp : trimSpace p = ""
  · simp [Chat, hp] at h
  · rcases t with e | resp
    · simp [Chat, hp] at h
    · rcases hc : resp.choices with _ | ⟨c, cs⟩
      · simp [Chat, hp, hc] at h
      · by_cases hb : trimSpace c.message.content = ""
        · simp [Chat, hp, hc, hb] at h
        · simp [Chat, hp, hc, hb] at h
          subst h
          exact ⟨trimSpace_idem _, hb⟩

theorem lookup_mem_of_mem_keys (rs : List (String × String)) (key : String)
    (h : key ∈ rs.map Prod.fst) :
    ∃ v, rs.lookup key = some v ∧ (key, v) ∈ rs := by
  induction rs with
  | nil => simp at h
  | cons pr rest ih =>
    obtain ⟨k, v⟩ := pr
    by_cases hk : key = k
    · subst hk
      exact ⟨v, by simp [List.lookup], by simp⟩
    · have h' : key ∈ rest.map Prod.fst := by
        simp only [List.map_cons, List.mem_cons] at h
        exact h.resolve_left hk
      obtain ⟨w, hw, hmem⟩ := ih h'
      refine ⟨w, ?_, by simp [hmem]⟩
      have hbeq : (key == k) = false := by
        simpa using hk
      simp [List.lookup, hbeq, hw]

/-- C10: for every successful completion with a non-empty file list (the
diff source and chat collaborators modelled as functions that fail or
return text, the chat call being the embedded `Chat`), the result mapping
has exactly one entry per listed file in listing order, every entry is a
non-empty already-trimmed string, and consequently the Content view's
blank-review placeholder branch is not taken for the selected file. -/
theorem C10_success_reviews (diffOf : String → Except String String)
    (transport : String → Except String ChatResponse) (files : List String)
    (hne : files ≠ [])
    (hok : (loadReviewsCmd (.ok files) diffOf
      (fun p => Chat (transport p) p)).err = none) :
    ((loadReviewsCmd (.ok files) diffOf
       (fun p => Chat (transport p) p)).reviews.map Prod.fst = files) ∧
    (∀ pr ∈ (loadReviewsCmd (.ok files) diffOf
       (fun p => Chat (transport p) p)).reviews,
      pr.2 ≠ "" ∧ trimSpace pr.2 = pr.2) ∧
    (∀ m : Model, m.files = files →
      m.reviews = (loadReviewsCmd (.ok files) diffOf
        (fun p => Chat (transport p) p)).reviews →
      0 ≤ m.selected → m.selected < (m.files.length : Int) →
      selectedReviewMD m =
        (m.reviews.lookup (m.files.getD m.selected.toNat "")).getD "") := by
  have hie : files.isEmpty = false := by simpa using hne
  rcases hr : reviewFiles diffOf (fun p => Chat (transport p) p) files with e | rs
  · rw [show loadReviewsCmd (.ok files) diffOf (fun p => Chat (transport p) p) =
      ⟨[], [], some e⟩ from by simp [loadReviewsCmd, hie, hr]] at hok
    simp at hok
  · have hmsg : loadReviewsCmd (.ok files) diffOf (fun p => Chat (transport p) p) =
        ⟨files, rs, none⟩ := by
      simp [loadReviewsCmd, hie, hr]
    rw [hmsg]
    obtain ⟨hmap, hall⟩ := reviewFiles_ok _ _ files rs hr
    have hblank : ∀ pr ∈ rs, pr.2 ≠ "" ∧ trimSpace pr.2 = pr.2 := by
      intro pr hpr
      obtain ⟨d, hd, hc⟩ := hall pr hpr
      obtain ⟨ht, hn⟩ := chat_ok_trimmed _ _ _ hc
      exact ⟨hn, ht⟩
    refine ⟨hmap, hblank, ?_⟩
    intro m hmf hmr hs0 hsl
    have hlt : m.selected.toNat < files.length := by
      rw [hmf] at hsl
      omega
    have hfile : m.files.getD m.selected.toNat "" ∈ files := by
      rw [hmf]
      rw [List.getD_eq_getElem files "" (by omega)]
      exact List.getElem_mem _
    obtain ⟨v, hv, hmem⟩ :=
      lookup_mem_of_mem_keys rs (m.files.getD m.selected.toNat "")
        (by rw [hmap]; exact hfile)
    have hvne : trimSpace v ≠ "" := by
      have hb := hblank _ hmem
      rw [hb.2]
      exact hb.1
    have hcond : 0 ≤ m.selected ∧ m.selected < (m.files.length : Int) := ⟨hs0, hsl⟩
    simp only [selectedReviewMD, if_pos hcond]
    rw [hmr, hv]
    simp [hvne]

set_option maxRecDepth 40000 in
/-- C10 witness: a one-file run with a successful diff fetch and a chat
transport returning one non-blank choice yields the per-file mapping. -/
theorem C10_success_reviews_witness :
    (loadReviewsCmd (.ok ["a.go"]) (fun _ => .ok "d")
      (fun p => Chat ((fun _ => .ok ⟨[⟨⟨"r"⟩⟩]⟩ :
        String → Except String ChatResponse) p) p)).reviews.map Prod.fst =
      ["a.go"] :=
  (C10_success_reviews (fun _ => .ok "d")
    (fun _ => .ok ⟨[⟨⟨"r"⟩⟩]⟩) ["a.go"] (by simp) rfl).1

end ReviewGo
